import Mathlib

/-!
Shallow embedding of the conversational tutoring core of the VisionOptics
application (source: `src/unnamed/part_000`).

The core is the function `askOpticsExpert` (source lines 43-97), which builds a
request for a generative-AI backend from a user query, the conversation
history and a UI language, issues one call, and maps the outcome to a string;
plus the message-store logic of the `AIChat` component (lines 398-436):
the welcome-message seeding effect and the append-only message list.

The external backend (`ai.models.generateContent`) is modelled as a parameter
`backend : GenRequest → Except String GenResponse`; a thrown JS error is an
`Except.error` value carrying an opaque description.  `response.text` in the
SDK may be a string or `undefined`, so it is modelled as `Option String`; the
JS truthiness test `response.text || fallback` treats both `undefined` and the
empty string as falsy.

`askOpticsExpertRun` returns, besides the answer string, the list of backend
requests issued (`calls`), the diagnostic records emitted (`logs`, one per
`console.error`), and the final value of the caller's `history` array
(`historyAfter`), threaded through every array operation the body performs on
it so that absence of mutation is a provable fact rather than a modelling
assumption.
-/

namespace VisionOptics

/-- The `role` field of `ChatMessage` (source line 29): `'user' | 'model'`. -/
inductive Role where
  | user
  | model
deriving DecidableEq

/-- `ChatMessage` (source lines 28-31). -/
structure ChatMessage where
  role : Role
  text : String
deriving DecidableEq

/-- `Language = 'en' | 'zh'` (source line 26). -/
inductive Language where
  | en
  | zh
deriving DecidableEq

/-- The string a `Role` denotes in the source (`'user'` / `'model'`). -/
def Role.toRoleString : Role → String
  | .user => "user"
  | .model => "model"

/-- One `parts` entry of a backend turn (source lines 72, 76). -/
structure Part where
  text : String
deriving DecidableEq

/-- One turn sent to the backend: `{ role, parts }` (source lines 70-77). -/
structure Content where
  role : String
  parts : List Part
deriving DecidableEq

/-- The request passed to `ai.models.generateContent` (source lines 80-87). -/
structure GenRequest where
  model : String
  contents : List Content
  systemInstruction : String
  temperature : Rat
deriving DecidableEq

/-- The backend response; `text` is `Option String` because the SDK's
`response.text` may be `undefined` (source line 89). -/
structure GenResponse where
  text : Option String
deriving DecidableEq

/-- The external generative-AI backend: one call either returns a response or
throws (modelled as `Except.error` with an opaque error description). -/
abbrev Backend := GenRequest → Except String GenResponse

/-- `langInstruction` (source lines 51-53). -/
def langInstruction : Language → String
  | .zh => "Reply in Simplified Chinese. Explain concepts using standard Machine Vision terminology in Chinese."
  | .en => "Reply in English."

/-- `systemInstruction` (source lines 55-67): the template literal with
`langInstruction` interpolated at rule 1, whitespace preserved exactly. -/
def systemInstruction (language : Language) : String :=
  "\n      You are an expert Professor of Machine Vision and Optics. \n      Your goal is to explain lighting techniques to students simply and clearly.\n      \n      Current Topic: Bright Field vs. Dark Field Lighting.\n      \n      Rules:\n      1. "
    ++ langInstruction language
    ++ "\n      2. Keep answers concise (under 150 words) unless asked for detail.\n      3. Use analogies (e.g., \"like a mirror\" or \"like driving in fog\").\n      4. Focus on the physics of reflection (Angle of Incidence = Angle of Reflection).\n      5. Formatting: Use bullet points for clarity.\n    "

/-- The fixed model identifier (source line 49). -/
def geminiModel : String := "gemini-2.5-flash"

/-- The localized empty-result fallback (source line 89). -/
def noAnswerText : Language → String
  | .zh => "抱歉，我现在无法回答光学问题。"
  | .en => "I couldn't generate a response regarding optics at the moment."

/-- The localized error string returned from the catch block (source lines 93-95). -/
def errorText : Language → String
  | .zh => "连接 AI 导师失败，请检查 API 密钥。"
  | .en => "Error connecting to the Optics AI Tutor. Please check your API key."

/-- ECMAScript `Array.prototype.map`: returns a fresh array of the images and
leaves the receiver untouched.  Returned as (result, receiver after the call)
so that callers thread the receiver explicitly. -/
def jsMap (f : α → β) (arr : List α) : List β × List α :=
  (arr.map f, arr)

/-- The `contents` array assembled by `askOpticsExpert` (source lines 69-78):
the mapped history followed by one user turn holding the query. -/
def turnContents (history : List ChatMessage) (query : String) : List Content :=
  history.map (fun msg => { role := msg.role.toRoleString, parts := [{ text := msg.text }] })
    ++ [{ role := "user", parts := [{ text := query }] }]

/-- The full request `askOpticsExpert` passes to the backend
(source lines 80-87): fixed model, assembled contents, system instruction,
temperature 0.7. -/
def buildRequest (query : String) (history : List ChatMessage) (language : Language) :
    GenRequest :=
  { model := geminiModel
    contents := turnContents history query
    systemInstruction := systemInstruction language
    temperature := 7 / 10 }

/-- Everything observable about one run of `askOpticsExpert`: the resolved
string, the diagnostic records emitted, the backend requests issued, and the
final value of the caller's `history` array. -/
structure AskResult where
  answer : String
  logs : List String
  calls : List GenRequest
  historyAfter : List ChatMessage
deriving DecidableEq

/-- `askOpticsExpert` (source lines 43-97), instrumented.  The body maps the
history (its only operation on the caller's array), appends the user turn,
issues exactly one backend call, and maps the outcome: a truthy `response.text`
is returned verbatim, a falsy one (empty string or `undefined`) yields the
localized no-answer fallback, and a thrown error is caught, logged via
`console.error("Gemini API Error:", error)` and converted to the localized
error string. -/
def askOpticsExpertRun (backend : Backend) (query : String)
    (history : List ChatMessage) (language : Language) : AskResult :=
  let mappedHistory := jsMap
    (fun msg => ({ role := msg.role.toRoleString, parts := [{ text := msg.text }] } : Content))
    history
  let requestContents := mappedHistory.1 ++ [{ role := "user", parts := [{ text := query }] }]
  let request : GenRequest :=
    { model := geminiModel
      contents := requestContents
      systemInstruction := systemInstruction language
      temperature := 7 / 10 }
  match backend request with
  | .ok response =>
      { answer :=
          match response.text with
          | some s => if s = "" then noAnswerText language else s
          | none => noAnswerText language
        logs := []
        calls := [request]
        historyAfter := mappedHistory.2 }
  | .error err =>
      { answer := errorText language
        logs := ["Gemini API Error: " ++ err]
        calls := [request]
        historyAfter := mappedHistory.2 }

/-- The string `askOpticsExpert` resolves to. -/
def askOpticsExpert (backend : Backend) (query : String)
    (history : List ChatMessage) (language : Language) : String :=
  (askOpticsExpertRun backend query history language).answer

/-- Boolean substring test, used to state facts about the system prompt. -/
def strContains (s pat : String) : Bool := decide (pat.data <:+: s.data)

/-- The welcome text seeded by `AIChat` (source lines 406-408). -/
def welcomeText (isZh : Bool) : String :=
  if isZh then
    "你好！我是你的光学助教。关于打光角度、明暗视野或检测难题，尽管问我。"
  else
    "Hi! I'm your Optics Tutor. Ask me anything about lighting angles, reflection, or detection techniques."

/-- The seeded welcome message: `{ role: 'model', text: welcomeText }`
(source line 411). -/
def welcomeMessage (isZh : Bool) : ChatMessage :=
  { role := .model, text := welcomeText isZh }

/-- `ConversationStore.reset`: `setMessages([welcome])` (source line 411)
replaces the store's contents with exactly the seeded message, regardless of
the prior state. -/
def resetStore (welcome : ChatMessage) : List ChatMessage :=
  [welcome]

/-- `ConversationStore.append`: `setMessages(prev => [...prev, msg])`
(source lines 428, 434). -/
def appendStore (store : List ChatMessage) (msg : ChatMessage) : List ChatMessage :=
  store ++ [msg]

/-- `ConversationStore.snapshot`: the `messages` value read by the component. -/
def snapshotStore (store : List ChatMessage) : List ChatMessage :=
  store

/-- One run of the welcome-seeding effect (source lines 405-414): with state
(`messages`, `initialized.current`), seed only when not yet initialized. -/
def welcomeEffect (isZh : Bool) (st : List ChatMessage × Bool) :
    List ChatMessage × Bool :=
  if st.2 then st else ([welcomeMessage isZh], true)

/-! ## Helper lemmas -/

/-- Normal form of one run: the single issued request is `buildRequest` and the
history array comes back unchanged through `jsMap`. -/
theorem askOpticsExpertRun_eq (backend : Backend) (query : String)
    (history : List ChatMessage) (language : Language) :
    askOpticsExpertRun backend query history language =
      match backend (buildRequest query history language) with
      | .ok response =>
          { answer :=
              match response.text with
              | some s => if s = "" then noAnswerText language else s
              | none => noAnswerText language
            logs := []
            calls := [buildRequest query history language]
            historyAfter := history }
      | .error err =>
          { answer := errorText language
            logs := ["Gemini API Error: " ++ err]
            calls := [buildRequest query history language]
            historyAfter := history } := by
  rfl

theorem noAnswerText_ne_empty (language : Language) : noAnswerText language ≠ "" := by
  cases language <;> decide

theorem errorText_ne_empty (language : Language) : errorText language ≠ "" := by
  cases language <;> decide

theorem noAnswerText_ne_errorText (language : Language) :
    noAnswerText language ≠ errorText language := by
  cases language <;> decide

theorem foldl_appendStore (ms : List ChatMessage) (store : List ChatMessage) :
    List.foldl appendStore store ms = store ++ ms := by
  induction ms generalizing store with
  | nil => simp
  | cons m ms ih => simp [appendStore, ih]

theorem foldl_welcomeEffect_of_initialized (zs : List Bool)
    (st : List ChatMessage × Bool) (hst : st.2 = true) :
    List.foldl (fun s z => welcomeEffect z s) st zs = st := by
  induction zs with
  | nil => rfl
  | cons z zs ih =>
      have h1 : welcomeEffect z st = st := by simp [welcomeEffect, hst]
      simpa [h1] using ih

/-! ## Concrete backends used by witnesses -/

/-- A backend that always succeeds with a fixed non-empty reply. -/
def okBackend : Backend := fun _ => .ok { text := some "Low angle light skims the flat surface." }

/-- A backend that always throws. -/
def failingBackend : Backend := fun _ => .error "network down"

/-- A backend that succeeds but produces empty text. -/
def emptyBackend : Backend := fun _ => .ok { text := some "" }

/-! ## Claim theorems -/

/-- C1: for every backend behavior, query (whitespace-only included), history
and language, `askOpticsExpert` resolves — it is a total function of its
inputs, every backend outcome included — and for a non-empty query the
resolved value is a non-empty string. -/
theorem ask_always_resolves_nonempty (backend : Backend) (query : String)
    (history : List ChatMessage) (language : Language) (hq : query ≠ "") :
    askOpticsExpert backend query history language ≠ "" := by
  unfold askOpticsExpert
  rw [askOpticsExpertRun_eq]
  cases backend (buildRequest query history language) with
  | ok response =>
      dsimp only
      cases response.text with
      | none => exact noAnswerText_ne_empty language
      | some s =>
          dsimp only
          by_cases hs : s = ""
          · rw [if_pos hs]
            exact noAnswerText_ne_empty language
          · rw [if_neg hs]
            exact hs
  | error err => exact errorText_ne_empty language

/-- Witness for C1 at a concrete non-empty query. -/
theorem ask_always_resolves_nonempty_witness :
    "Why low angle for scratches?" ≠ "" ∧
    askOpticsExpert okBackend "Why low angle for scratches?" [] .en ≠ "" :=
  ⟨by decide,
   ask_always_resolves_nonempty okBackend "Why low angle for scratches?" [] .en (by decide)⟩

/-- C2: the turn sequence of every request passed to the backend is the
history mapped in chronological order with each role preserved, followed by
exactly one final user turn holding the query — no truncation, reordering or
omission. -/
theorem ask_turn_sequence (backend : Backend) (query : String)
    (history : List ChatMessage) (language : Language) :
    ((askOpticsExpertRun backend query history language).calls.map
        fun r => r.contents)
      = [history.map
            (fun msg => { role := msg.role.toRoleString, parts := [{ text := msg.text }] })
          ++ [{ role := "user", parts := [{ text := query }] }]] := by
  rw [askOpticsExpertRun_eq]
  cases backend (buildRequest query history language) <;>
    simp [buildRequest, turnContents]

/-- C3: a backend error is caught and logged, and `ask` resolves to the fixed
localized error string (exact text for both languages); the error never
reaches the caller, who only sees the resolved string. -/
theorem ask_backend_error_localized (backend : Backend) (query : String)
    (history : List ChatMessage) (language : Language) (e : String)
    (he : backend (buildRequest query history language) = .error e) :
    askOpticsExpert backend query history language = errorText language ∧
    (askOpticsExpertRun backend query history language).logs
      = ["Gemini API Error: " ++ e] ∧
    errorText .en = "Error connecting to the Optics AI Tutor. Please check your API key." ∧
    errorText .zh = "连接 AI 导师失败，请检查 API 密钥。" := by
  unfold askOpticsExpert
  rw [askOpticsExpertRun_eq, he]
  exact ⟨rfl, rfl, rfl, rfl⟩

/-- Witness for C3 against a backend that always throws. -/
theorem ask_backend_error_localized_witness :
    askOpticsExpert failingBackend "Why?" [] .en = errorText .en ∧
    (askOpticsExpertRun failingBackend "Why?" [] .en).logs
      = ["Gemini API Error: network down"] :=
  ⟨(ask_backend_error_localized failingBackend "Why?" [] .en "network down" rfl).1,
   (ask_backend_error_localized failingBackend "Why?" [] .en "network down" rfl).2.1⟩

/-- C4: a successful backend call with empty text (empty string or missing)
resolves to the localized no-answer fallback, which differs from the error
string; a non-empty reply is returned verbatim. -/
theorem ask_empty_reply_fallback (backend : Backend) (query : String)
    (history : List ChatMessage) (language : Language) (r : GenResponse)
    (hok : backend (buildRequest query history language) = .ok r) :
    ((r.text = none ∨ r.text = some "") →
      askOpticsExpert backend query history language = noAnswerText language) ∧
    (∀ s, r.text = some s → s ≠ "" →
      askOpticsExpert backend query history language = s) ∧
    noAnswerText language ≠ errorText language := by
  refine ⟨?_, ?_, noAnswerText_ne_errorText language⟩
  · intro hempty
    unfold askOpticsExpert
    rw [askOpticsExpertRun_eq, hok]
    dsimp only
    rcases hempty with ht | ht <;> rw [ht] <;> rfl
  · intro s hs hns
    unfold askOpticsExpert
    rw [askOpticsExpertRun_eq, hok]
    dsimp only
    rw [hs]
    dsimp only
    rw [if_neg hns]

/-- Witness for C4 against a backend returning empty text. -/
theorem ask_empty_reply_fallback_witness :
    askOpticsExpert emptyBackend "Why?" [] .en = noAnswerText .en ∧
    noAnswerText .en ≠ errorText .en :=
  ⟨(ask_empty_reply_fallback emptyBackend "Why?" [] .en { text := some "" } rfl).1
      (Or.inr rfl),
   (ask_empty_reply_fallback emptyBackend "Why?" [] .en { text := some "" } rfl).2.2⟩

set_option maxRecDepth 40000 in
/-- C5: the ZH system prompt contains the Simplified-Chinese directive with
the machine-vision-terminology instruction; the EN prompt has no
Simplified-Chinese directive and instead says to reply in English. -/
theorem systemInstruction_language_directive :
    strContains (systemInstruction .zh) "Reply in Simplified Chinese" = true ∧
    strContains (systemInstruction .zh)
      "Explain concepts using standard Machine Vision terminology in Chinese" = true ∧
    strContains (systemInstruction .en) "Simplified Chinese" = false ∧
    strContains (systemInstruction .en) "Reply in English." = true := by
  refine ⟨?_, ?_, ?_, ?_⟩ <;> decide


/-- C6: reset seeds exactly one MODEL welcome message regardless of the prior
store (idempotent in effect), and after any sequence of appends the snapshot
is the seeded welcome message followed by the appended messages in call
order. -/
theorem store_reset_append_snapshot (isZh : Bool) (ms : List ChatMessage) :
    snapshotStore (List.foldl appendStore (resetStore (welcomeMessage isZh)) ms)
      = welcomeMessage isZh :: ms ∧
    (welcomeMessage isZh).role = .model ∧
    (resetStore (welcomeMessage isZh)).length = 1 := by
  refine ⟨?_, rfl, rfl⟩
  simp [snapshotStore, resetStore, foldl_appendStore]

/-- C7: `ask` treats the caller's history as read-only — after every run,
threading the history array through each operation the body performs on it,
the array is unchanged. -/
theorem ask_history_readonly (backend : Backend) (query : String)
    (history : List ChatMessage) (language : Language) :
    (askOpticsExpertRun backend query history language).historyAfter = history := by
  rw [askOpticsExpertRun_eq]
  cases backend (buildRequest query history language) <;> rfl

/-- C8: every invocation issues exactly one backend call — no retry — whose
request carries the fixed model identifier, temperature 0.7, the assembled
system prompt and the assembled turn sequence. -/
theorem ask_single_fixed_call (backend : Backend) (query : String)
    (history : List ChatMessage) (language : Language) :
    (askOpticsExpertRun backend query history language).calls
        = [buildRequest query history language] ∧
    (buildRequest query history language).model = "gemini-2.5-flash" ∧
    (buildRequest query history language).temperature = 7 / 10 ∧
    (buildRequest query history language).systemInstruction = systemInstruction language ∧
    (buildRequest query history language).contents = turnContents history query := by
  refine ⟨?_, rfl, rfl, rfl, rfl⟩
  rw [askOpticsExpertRun_eq]
  cases backend (buildRequest query history language) <;> rfl

/-- C9: prompt construction is deterministic — two runs with the same query,
history and language issue identical requests, whatever else (here: the
backend's behavior) differs between the runs. -/
theorem ask_request_deterministic (b₁ b₂ : Backend) (query : String)
    (history : List ChatMessage) (language : Language) :
    (askOpticsExpertRun b₁ query history language).calls
      = (askOpticsExpertRun b₂ query history language).calls := by
  rw [askOpticsExpertRun_eq, askOpticsExpertRun_eq]
  cases b₁ (buildRequest query history language) <;>
    cases b₂ (buildRequest query history language) <;> rfl

/-- C10: starting from the mount state (empty messages, not initialized), the
first run of the seeding effect installs the welcome message of the language
active at that moment, and every later run — any sequence of language values —
leaves the store untouched, so the welcome text keeps its first language. -/
theorem welcome_seeded_once (first : Bool) (rest : List Bool) :
    List.foldl (fun st z => welcomeEffect z st) (welcomeEffect first ([], false)) rest
      = ([welcomeMessage first], true) := by
  have h1 : welcomeEffect first ([], false) = ([welcomeMessage first], true) := by
    simp [welcomeEffect]
  rw [h1]
  exact foldl_welcomeEffect_of_initialized rest _ rfl

end VisionOptics
